import Mathlib

/-!
Verification development for the path_tracer repository.

Shallow embedding of the parts of the source the claims concern:

* material interning (`SceneManager::prepareForRender`, SceneWrappers.h);
* surface-shader discovery, entry-point extraction and dispatch synthesis
  (`ShaderCompiler::loadAndInjectSurfaceShaders`, ShaderCompiler.cpp);
* the packed GPU sphere record (`GPUSphere` in Camera.h, `Sphere::toGPU`
  in SceneWrappers.cpp);
* the volumetric field (`Volumetric::hit`, `Volumetric::getDensity`,
  `Volumetric::getExitPoint`, Volumetric.cpp);
* the frame-in-flight fence discipline (`VulkanRenderer::render`,
  VulkanRenderer.cpp).

Machine doubles/floats are modelled as `ℚ`, C++ `int` as `Int`,
`uint8_t` as `Fin 256`.
-/

/- ### Scene entity & material interning (SceneWrappers.h) -/

/-- A material reference as the entities hold it: a C++ `const Material *`.
`id` is the pointer identity (two references alias exactly when their `id`s
are equal), `val` the pointed-to field values.  The interning pass keys its
`unordered_map` on the pointer, i.e. on `id`. -/
structure MatPtr (α : Type) where
  id : Nat
  val : α
deriving DecidableEq

/-- The face an entity (Sphere, Ellipsoid, VolumetricData) shows to
`SceneManager::prepareForRender`: its `getMaterial()` result (possibly null)
and its mutable `materialIndex_` field. -/
structure Entity (α : Type) where
  mat : Option (MatPtr α)
  materialIndex : Int
deriving DecidableEq

/-- Entity construction: every constructor in SceneWrappers.h initializes
`materialIndex_` to `-1`. -/
def Entity.ofMaterial {α : Type} (m : Option (MatPtr α)) : Entity α :=
  { mat := m, materialIndex := -1 }

/-- The state `prepareForRender` threads through the entity containers:
`outMaterials` (the deduplicated list being built) and `materialIndexMap`
(the `unordered_map<const Material *, int>`), modelled as an association
list from pointer identity to assigned index with unique keys. -/
structure InternState (α : Type) where
  outMaterials : List α
  indexMap : List (Nat × Int)

/-- Body of the per-entity loop of `prepareForRender`: a null material is
skipped; a pointer already in the map reuses its index; a new pointer is
appended to `outMaterials` and assigned index `outMaterials.size()`.
Returns the new state and the updated entity. -/
def processEntity {α : Type} (s : InternState α) (e : Entity α) :
    InternState α × Entity α :=
  match e.mat with
  | none => (s, e)
  | some m =>
    match s.indexMap.lookup m.id with
    | some i => (s, { e with materialIndex := i })
    | none =>
      let i : Int := s.outMaterials.length
      ({ outMaterials := s.outMaterials ++ [m.val],
         indexMap := (m.id, i) :: s.indexMap },
       { e with materialIndex := i })

/-- The `processContainer` lambda of `prepareForRender`: fold the per-entity
step over one container, collecting the updated entities in place. -/
def processContainer {α : Type} :
    InternState α → List (Entity α) → InternState α × List (Entity α)
  | s, [] => (s, [])
  | s, e :: es =>
    ((processContainer (processEntity s e).1 es).1,
     (processEntity s e).2 :: (processContainer (processEntity s e).1 es).2)

/-- The fold expression `(processContainer(objectContainers), ...)`:
process every container in the caller-supplied order. -/
def processAll {α : Type} :
    InternState α → List (List (Entity α)) → InternState α × List (List (Entity α))
  | s, [] => (s, [])
  | s, c :: cs =>
    ((processAll (processContainer s c).1 cs).1,
     (processContainer s c).2 :: (processAll (processContainer s c).1 cs).2)

/-- `SceneManager::prepareForRender`: clear `outMaterials`, start from an
empty map, process all containers.  Returns the final state (materials list
and map) together with the updated entity containers. -/
def SceneManager.prepareForRender {α : Type}
    (containers : List (List (Entity α))) :
    InternState α × List (List (Entity α)) :=
  processAll { outMaterials := [], indexMap := [] } containers

/- ### Shading composition (ShaderCompiler.cpp) -/

/-- The fixed entry-point marker `loadAndInjectSurfaceShaders` searches for
in each module's source text. -/
def surfaceMarker : List Char := "SurfaceShaderResult ".toList

/-- `std::string::find`: index of the first occurrence of `needle` in
`hay`, `none` for `npos`. -/
def findSub : List Char → List Char → Option Nat
  | [], needle => if needle = [] then some 0 else none
  | h :: t, needle =>
    if needle.isPrefixOf (h :: t) then some 0
    else (findSub t needle).map (· + 1)

/-- Entry-point extraction in `loadAndInjectSurfaceShaders`: locate the
marker, then read from 20 characters past its start (the marker's length)
up to the next `(`.  When the marker — or the `(` — is absent,
`functionName` is left as the empty string; the module is not skipped. -/
def extractFunctionName (code : List Char) : List Char :=
  match findSub code surfaceMarker with
  | none => []
  | some p =>
    let rest := code.drop (p + 20)
    match findSub rest ['('] with
    | none => []
    | some e => rest.take e

/-- The `outPathToIndex` loop: the modules (path, source) in `std::map`
iteration order each receive the next integer, starting from the given
counter (`shaderIndex = 1` at the top of the loop; 0 is reserved). -/
def shaderIndexAssignment : Nat → List (List Char × List Char) → List (List Char × Nat)
  | _, [] => []
  | i, (path, _) :: ms => (path, i) :: shaderIndexAssignment (i + 1) ms

/-- The complete path-to-index map built by `loadAndInjectSurfaceShaders`. -/
def surfaceShaderIndexMap (mods : List (List Char × List Char)) :
    List (List Char × Nat) :=
  shaderIndexAssignment 1 mods

/-- The dispatch ladder the same loop synthesizes, modelled structurally:
one `(shaderIndex, functionName)` branch per module, in loop order.  Every
module produces a branch — there is no skip path for a module whose marker
is missing; such a module's branch carries the empty function name. -/
def dispatchBranches : Nat → List (List Char × List Char) → List (Nat × List Char)
  | _, [] => []
  | i, (_, code) :: ms => (i, extractFunctionName code) :: dispatchBranches (i + 1) ms

/-- The full surface-shading dispatch chain (`dispatchCode`), starting at
index 1. -/
def surfaceDispatchChain (mods : List (List Char × List Char)) :
    List (Nat × List Char) :=
  dispatchBranches 1 mods

/- ### Vectors, rays, packed GPU sphere (Vec3.h, Ray.h, Camera.h) -/

/-- Three-component vector (`Vec3` with `double` fields; also stands in for
`glm::vec3` in the packed structs). -/
structure Vec3 where
  x : ℚ
  y : ℚ
  z : ℚ
deriving DecidableEq

/-- `Vec3::operator+`. -/
def Vec3.add (a b : Vec3) : Vec3 := ⟨a.x + b.x, a.y + b.y, a.z + b.z⟩

/-- `Vec3::operator*` (scalar). -/
def Vec3.smul (a : Vec3) (t : ℚ) : Vec3 := ⟨a.x * t, a.y * t, a.z * t⟩

/-- A ray: origin and (not necessarily normalized) direction. -/
structure Ray where
  origin : Vec3
  direction : Vec3

/-- `Ray::at`: `origin + direction * t`. -/
def Ray.pointAt (r : Ray) (t : ℚ) : Vec3 := (r.origin).add (r.direction.smul t)

/-- One 4-byte word of a packed GPU record: an `f32` or an `i32` field. -/
inductive GPUWord where
  | f32 : ℚ → GPUWord
  | i32 : Int → GPUWord
deriving DecidableEq

/-- `struct GPUSphere` (Camera.h:192-197): member order is `center`,
`radius`, `color`, `materialIndex`. -/
structure GPUSphere where
  center : Vec3
  radius : ℚ
  color : Vec3
  materialIndex : Int
deriving DecidableEq

/-- The host-side `Sphere` wrapper fields that `Sphere::toGPU` reads
(SceneWrappers.h; the non-owning material pointer, modelled separately by
`Entity`, is not read by `toGPU`). -/
structure Sphere where
  center : Vec3
  radius : ℚ
  color : Vec3
  materialIndex : Int

/-- `Sphere::toGPU` (SceneWrappers.cpp): field-for-field copy. -/
def Sphere.toGPU (s : Sphere) : GPUSphere :=
  { center := s.center, radius := s.radius, color := s.color,
    materialIndex := s.materialIndex }

/-- The byte-exact word sequence of a `GPUSphere`, one entry per 4-byte
word in declaration order: `glm::vec3` contributes three consecutive `f32`
words, so the record is center.x, center.y, center.z, radius, color.x,
color.y, color.z, materialIndex — 8 words, 32 bytes. -/
def GPUSphere.words (g : GPUSphere) : List GPUWord :=
  [GPUWord.f32 g.center.x, GPUWord.f32 g.center.y, GPUWord.f32 g.center.z,
   GPUWord.f32 g.radius,
   GPUWord.f32 g.color.x, GPUWord.f32 g.color.y, GPUWord.f32 g.color.z,
   GPUWord.i32 g.materialIndex]

/-- Modelled from the spec's words, for comparison with the source layout:
the claimed sphere record "center (3×f32), radius (f32), material index
(i32), then 3×i32 padding". -/
def GPUSphere.wordsClaimed (g : GPUSphere) : List GPUWord :=
  [GPUWord.f32 g.center.x, GPUWord.f32 g.center.y, GPUWord.f32 g.center.z,
   GPUWord.f32 g.radius,
   GPUWord.i32 g.materialIndex, GPUWord.i32 0, GPUWord.i32 0, GPUWord.i32 0]

/-- Bytes per packed word. -/
def gpuWordBytes : Nat := 4

/- ### Volumetric field (Volumetric.cpp) -/

/-- The epsilon of `Volumetric::hit` (`EPSILON = 1e-6`, also the literal
`1e-6` of the axis-parallel tests). -/
def volEps : ℚ := 1 / 1000000

/-- The `Volumetric` object: world position of the box's min corner, scale,
per-axis resolution (`int _resolution[3]`), per-axis slice thickness
(`double _thickness[3]`), box corners `_v0`/`_v1`, and the density bytes. -/
structure Volumetric where
  position : Vec3
  scale : ℚ
  resolutionX : Int
  resolutionY : Int
  resolutionZ : Int
  thicknessX : ℚ
  thicknessY : ℚ
  thicknessZ : ℚ
  v0 : Vec3
  v1 : Vec3
  data : List (Fin 256)

/-- `Volumetric::Value`: bounds-check each index against
`[0, resolution)`; out of range yields 0, in range reads the byte at the
row-major z→y→x linear index.  (The C++ read is unchecked against the
array length; the load-time invariant `len(data) = rx*ry*rz` keeps it in
bounds, and the model reads 0 past the end.) -/
def Volumetric.Value (v : Volumetric) (x y z : Int) : Fin 256 :=
  if x < 0 ∨ y < 0 ∨ z < 0 ∨
      v.resolutionX ≤ x ∨ v.resolutionY ≤ y ∨ v.resolutionZ ≤ z then 0
  else v.data.getD (z * v.resolutionY * v.resolutionX + y * v.resolutionX + x).toNat 0

/-- `Volumetric::GetIndexes`: `floor((point - _position) / voxelSize)` per
axis, with `voxelSize = _thickness * _scale`.  (The source stores the three
floors, cast to `int`, in a `Vec3` of doubles; the model keeps them as
integers directly.) -/
def Volumetric.GetIndexes (v : Volumetric) (p : Vec3) : Int × Int × Int :=
  (⌊(p.x - v.position.x) / (v.thicknessX * v.scale)⌋,
   ⌊(p.y - v.position.y) / (v.thicknessY * v.scale)⌋,
   ⌊(p.z - v.position.z) / (v.thicknessZ * v.scale)⌋)

/-- `Volumetric::getDensity`: voxel value at the point's indices, divided
by 255.  (The source's extra `(int)std::floor` on the already-integral
index components is the identity and is dropped.) -/
def Volumetric.getDensity (v : Volumetric) (p : Vec3) : ℚ :=
  let i := v.GetIndexes p
  ((v.Value i.1 i.2.1 i.2.2).val : ℚ) / 255

/-- Near-slab time of one axis, in the non-parallel case: `invD = 1/d`,
`tNear = (lo - o) * invD`, `tFar = (hi - o) * invD`, swapped when
`invD < 0`, then `max` with the running `t0`. -/
def slabLo (d o lo hi t0 : ℚ) : ℚ :=
  let invD := 1 / d
  let tn := (lo - o) * invD
  let tf := (hi - o) * invD
  max t0 (if invD < 0 then tf else tn)

/-- Far-slab time of one axis, in the non-parallel case: as `slabLo` but
`min` of the running `t1` with the far time. -/
def slabHi (d o lo hi t1 : ℚ) : ℚ :=
  let invD := 1 / d
  let tn := (lo - o) * invD
  let tf := (hi - o) * invD
  min t1 (if invD < 0 then tn else tf)

/-- Running near time after one axis: updated only when the axis is
non-parallel (`|d| > 1e-6`), otherwise the axis imposes no bound. -/
def axisLo (d o lo hi t0 : ℚ) : ℚ :=
  if volEps < |d| then slabLo d o lo hi t0 else t0

/-- Running far time after one axis, as `axisLo`. -/
def axisHi (d o lo hi t1 : ℚ) : ℚ :=
  if volEps < |d| then slabHi d o lo hi t1 else t1

/-- One axis block of `Volumetric::hit`: a non-parallel axis narrows the
interval; a parallel axis whose origin lies outside the slab (beyond
`EPSILON`) returns no hit; a parallel axis inside the slab leaves the
interval unchanged. -/
def slabAxis (d o lo hi : ℚ) (t : ℚ × ℚ) : Option (ℚ × ℚ) :=
  if volEps < |d| then some (slabLo d o lo hi t.1, slabHi d o lo hi t.2)
  else if o < lo - volEps ∨ hi + volEps < o then none
  else some t

/-- The `if (t1 <= t0 + EPSILON) return false` check that follows each
axis block of `Volumetric::hit`. -/
def intervalCheck (t : ℚ × ℚ) : Option (ℚ × ℚ) :=
  if t.2 ≤ t.1 + volEps then none else some t

/-- `Volumetric::hit`: slab intersection axis by axis starting from
`[tMin, tMax]`, with the emptiness check after every axis, then the final
`t0 < tMin || t0 > tMax` rejection; a hit reports `t0` and
`ray.at(t0)`.  (The hit record's normal — a normalized gradient — and its
material/object pointers are not read by any claim and are omitted.) -/
def Volumetric.hit (v : Volumetric) (ray : Ray) (tMin tMax : ℚ) :
    Option (ℚ × Vec3) :=
  ((slabAxis ray.direction.x ray.origin.x v.v0.x v.v1.x (tMin, tMax)).bind
      intervalCheck).bind fun tx =>
    ((slabAxis ray.direction.y ray.origin.y v.v0.y v.v1.y tx).bind
        intervalCheck).bind fun ty =>
      ((slabAxis ray.direction.z ray.origin.z v.v0.z v.v1.z ty).bind
          intervalCheck).bind fun tz =>
        if tz.1 < tMin ∨ tMax < tz.1 then none
        else some (tz.1, ray.pointAt tz.1)

/-- The combined near time of `Volumetric::hit`'s interval: `tMin` pushed
up by every non-parallel axis, x then y then z. -/
def Volumetric.combinedT0 (v : Volumetric) (ray : Ray) (tMin : ℚ) : ℚ :=
  axisLo ray.direction.z ray.origin.z v.v0.z v.v1.z
    (axisLo ray.direction.y ray.origin.y v.v0.y v.v1.y
      (axisLo ray.direction.x ray.origin.x v.v0.x v.v1.x tMin))

/-- The combined far time of `Volumetric::hit`'s interval: `tMax` pulled
down by every non-parallel axis. -/
def Volumetric.combinedT1 (v : Volumetric) (ray : Ray) (tMax : ℚ) : ℚ :=
  axisHi ray.direction.z ray.origin.z v.v0.z v.v1.z
    (axisHi ray.direction.y ray.origin.y v.v0.y v.v1.y
      (axisHi ray.direction.x ray.origin.x v.v0.x v.v1.x tMax))

/-- The exit parameter computed by `Volumetric::getExitPoint`: `t1` starts
at `1e10` and is pulled down by each non-parallel axis of the slab method,
measured from the entry point; a parallel axis is skipped (imposes no
bound), with no containment test and no failure path.  (The function also
updates a `t0` that its result never reads.) -/
def Volumetric.exitT (v : Volumetric) (ray : Ray) (entry : Vec3) : ℚ :=
  axisHi ray.direction.z entry.z v.v0.z v.v1.z
    (axisHi ray.direction.y entry.y v.v0.y v.v1.y
      (axisHi ray.direction.x entry.x v.v0.x v.v1.x 10000000000))

/-- `Volumetric::getExitPoint`: `entryPoint + direction * t1`. -/
def Volumetric.getExitPoint (v : Volumetric) (ray : Ray) (entry : Vec3) : Vec3 :=
  entry.add (ray.direction.smul (v.exitT ray entry))

/- ### Frame pipelining (VulkanRenderer.cpp) -/

/-- `VulkanRenderer::MAX_FRAMES_IN_FLIGHT` (Camera.h:300). -/
def MAX_FRAMES_IN_FLIGHT : Nat := 2

/-- Which frame last submitted into fence slot `s` after frames
`0, …, k-1` have run through `VulkanRenderer::render`: frame `j` uses slot
`j % MAX_FRAMES_IN_FLIGHT` (`currentFrame` starts at 0 and advances by one
modulo `MAX_FRAMES_IN_FLIGHT` after each submit).  `none` means the slot's
fence is still in its initial (created-signaled) state. -/
def lastSubmittedInSlot : Nat → Nat → Option Nat
  | 0, _ => none
  | k + 1, s => if s = k % MAX_FRAMES_IN_FLIGHT then some k else lastSubmittedInSlot k s

/-- The fence `render` waits on at the top of frame `k`:
`vkInFlightFences[currentFrame]`, i.e. slot `k % MAX_FRAMES_IN_FLIGHT`'s
fence, identified by the frame that last submitted with it. -/
def waitTarget (k : Nat) : Option Nat :=
  lastSubmittedInSlot k (k % MAX_FRAMES_IN_FLIGHT)

/-- The host-side actions of one `VulkanRenderer::render` call, in program
order. -/
inductive RenderEvent where
  | waitFence : Option Nat → RenderEvent
  | record : Nat → RenderEvent
  | submit : Nat → RenderEvent
deriving DecidableEq

/-- `VulkanRenderer::render` for frame `k`: wait on the slot's fence
(identified by its previous occupant), then record, then submit — in that
order. -/
def renderEvents (k : Nat) : List RenderEvent :=
  [RenderEvent.waitFence (waitTarget k), RenderEvent.record k,
   RenderEvent.submit k]

/-! ## Theorems -/

/- ### Frame pipelining (claim C9) -/

/-- The fence slot of frame `k + 2` was last submitted to by frame `k`. -/
theorem waitTarget_add_two (k : Nat) : waitTarget (k + 2) = some k := by
  have h2 : (k + 2) % 2 = k % 2 := by omega
  have h1 : ¬ (k % 2 = (k + 1) % 2) := by omega
  simp only [waitTarget, MAX_FRAMES_IN_FLIGHT, lastSubmittedInSlot, h2]
  simp [h1]

/-- The fence waited on at frame `k + 1` is never the one just submitted
with frame `k`: consecutive frames use different slots. -/
theorem waitTarget_succ_ne (k : Nat) : waitTarget (k + 1) ≠ some k := by
  cases k with
  | zero => simp [waitTarget, lastSubmittedInSlot, MAX_FRAMES_IN_FLIGHT]
  | succ j =>
    rw [show j + 1 + 1 = j + 2 from rfl, waitTarget_add_two]
    simp

/-- C9.  `VulkanRenderer::render` waits, before recording into a frame
slot, on that slot's fence — the fence submitted `MAX_FRAMES_IN_FLIGHT = 2`
frames earlier — and never on the fence of the frame it has just
submitted; within frame `k + 2`'s call, the wait on frame `k`'s fence
precedes the recording in program order. -/
theorem render_frame_fence_spec (k : Nat) :
    MAX_FRAMES_IN_FLIGHT = 2 ∧
    waitTarget (k + MAX_FRAMES_IN_FLIGHT) = some k ∧
    waitTarget (k + 1) ≠ some k ∧
    renderEvents (k + MAX_FRAMES_IN_FLIGHT) =
      [RenderEvent.waitFence (some k),
       RenderEvent.record (k + MAX_FRAMES_IN_FLIGHT),
       RenderEvent.submit (k + MAX_FRAMES_IN_FLIGHT)] := by
  refine ⟨rfl, ?_, waitTarget_succ_ne k, ?_⟩
  · show waitTarget (k + 2) = some k
    exact waitTarget_add_two k
  · show renderEvents (k + 2) = _
    simp [renderEvents, waitTarget_add_two k, MAX_FRAMES_IN_FLIGHT]

/- ### Shader-module index assignment (claim C7) -/

/-- The index loop starting at counter `i` hands out `i, i+1, …` in
iteration order. -/
theorem shaderIndexAssignment_snd (i : Nat) (ms : List (List Char × List Char)) :
    (shaderIndexAssignment i ms).map Prod.snd = List.range' i ms.length := by
  induction ms generalizing i with
  | nil => rfl
  | cons m ms ih =>
    cases m with
    | mk path code => simp [shaderIndexAssignment, List.range'_succ, ih]

/-- C7.  Over `N` discovered modules the shader-index map assigns exactly
the indices `1..N`, each module exactly one index with no duplicates, and
index 0 (reserved for the built-in Phong model) is assigned to none of
them. -/
theorem shader_index_map_spec (mods : List (List Char × List Char)) :
    (surfaceShaderIndexMap mods).map Prod.snd = List.range' 1 mods.length ∧
    ((surfaceShaderIndexMap mods).map Prod.snd).Nodup ∧
    ∀ p ∈ surfaceShaderIndexMap mods, 1 ≤ p.2 := by
  unfold surfaceShaderIndexMap
  refine ⟨shaderIndexAssignment_snd 1 mods, ?_, ?_⟩
  · rw [shaderIndexAssignment_snd 1 mods]
    exact List.nodup_range' 1 mods.length
  · intro p hp
    have hmem : p.2 ∈ (shaderIndexAssignment 1 mods).map Prod.snd :=
      List.mem_map_of_mem Prod.snd hp
    rw [shaderIndexAssignment_snd 1 mods] at hmem
    exact (List.mem_range'_1.mp hmem).1

/- ### Packed GPU sphere record (claim C3) -/

/-- C3 counterexample.  The packed sphere record is not
center/radius/materialIndex/padding: its fifth word (byte offset 16) is
`color.x`, not the material index, as evaluation at a concrete sphere
shows. -/
theorem gpu_sphere_layout_counterexample :
    (Sphere.toGPU ⟨⟨1, 2, 3⟩, 4, ⟨5, 6, 7⟩, 8⟩).words ≠
      GPUSphere.wordsClaimed (Sphere.toGPU ⟨⟨1, 2, 3⟩, 4, ⟨5, 6, 7⟩, 8⟩) := by
  decide

/-- C3 (amended).  `Sphere::toGPU` produces a 32-byte record of 8 4-byte
words in the order center (3×f32), radius (f32), color (3×f32), material
index (i32) — the color occupies the three words the spec calls padding. -/
theorem gpu_sphere_layout_spec (s : Sphere) :
    (s.toGPU).words =
      [GPUWord.f32 s.center.x, GPUWord.f32 s.center.y, GPUWord.f32 s.center.z,
       GPUWord.f32 s.radius,
       GPUWord.f32 s.color.x, GPUWord.f32 s.color.y, GPUWord.f32 s.color.z,
       GPUWord.i32 s.materialIndex] ∧
    (s.toGPU).words.length * gpuWordBytes = 32 :=
  ⟨rfl, rfl⟩

/- ### Missing entry-point marker (claim C2) -/

/-- The dispatch loop emits one branch per module regardless of content. -/
theorem dispatchBranches_length (j : Nat) (ms : List (List Char × List Char)) :
    (dispatchBranches j ms).length = ms.length := by
  induction ms generalizing j with
  | nil => rfl
  | cons m ms ih => simp [dispatchBranches, ih]

/-- Branch `i` of the loop started at counter `j` belongs to module `i` and
carries index `j + i` and that module's extracted function name. -/
theorem dispatchBranches_getElem (j i : Nat) (ms : List (List Char × List Char)) :
    (dispatchBranches j ms)[i]? =
      (ms[i]?).map (fun m => (j + i, extractFunctionName m.2)) := by
  induction ms generalizing j i with
  | nil => simp [dispatchBranches]
  | cons m ms ih =>
    cases m with
    | mk path code =>
      cases i with
      | zero => simp [dispatchBranches]
      | succ i =>
        have harith : j + 1 + i = j + (i + 1) := by omega
        simp [dispatchBranches, ih (j + 1) i, harith]

/-- C2 counterexample.  A module whose source text lacks the marker
`"SurfaceShaderResult "` is not skipped: it still receives a dispatch
branch (index 1 here), whose extracted function name is empty. -/
theorem shader_missing_marker_counterexample :
    surfaceDispatchChain
        [("bad.glsl".toList, "vec4 shade(Data d);".toList)] =
      [(1, [])] := by
  decide

/-- C2 (amended).  The shading-composition step emits a dispatch branch for
every module, marker or not: the chain has exactly one branch per module,
the branch of module `i` carries index `i + 1` and that module's extracted
function name, and when the marker is absent from a module's text the
extracted name is the empty string (the module is not skipped). -/
theorem shader_missing_marker_spec (mods : List (List Char × List Char))
    (i : Nat) (code : List Char) :
    (surfaceDispatchChain mods).length = mods.length ∧
    (surfaceDispatchChain mods)[i]? =
      (mods[i]?).map (fun m => (i + 1, extractFunctionName m.2)) ∧
    (findSub code surfaceMarker = none → extractFunctionName code = []) := by
  refine ⟨dispatchBranches_length 1 mods, ?_, ?_⟩
  · rw [surfaceDispatchChain, dispatchBranches_getElem 1 i mods]
    simp [Nat.add_comm]
  · intro h
    simp [extractFunctionName, h]

/- ### Volumetric density lookup (claim C4) -/

/-- C4.  `Volumetric::getDensity` computes the voxel index as
`floor((point - origin) / voxelSize)` per axis (`voxelSize` being slice
thickness times scale); any index outside `[0, resolution)` on its axis
yields exactly 0, otherwise the stored byte divided by 255 — so the result
always lies in `[0, 1]`. -/
theorem density_at_spec (v : Volumetric) (p : Vec3) :
    (v.getDensity p =
      if ⌊(p.x - v.position.x) / (v.thicknessX * v.scale)⌋ < 0 ∨
          ⌊(p.y - v.position.y) / (v.thicknessY * v.scale)⌋ < 0 ∨
          ⌊(p.z - v.position.z) / (v.thicknessZ * v.scale)⌋ < 0 ∨
          v.resolutionX ≤ ⌊(p.x - v.position.x) / (v.thicknessX * v.scale)⌋ ∨
          v.resolutionY ≤ ⌊(p.y - v.position.y) / (v.thicknessY * v.scale)⌋ ∨
          v.resolutionZ ≤ ⌊(p.z - v.position.z) / (v.thicknessZ * v.scale)⌋
       then 0
       else ((v.data.getD
          (⌊(p.z - v.position.z) / (v.thicknessZ * v.scale)⌋ * v.resolutionY *
              v.resolutionX +
            ⌊(p.y - v.position.y) / (v.thicknessY * v.scale)⌋ * v.resolutionX +
            ⌊(p.x - v.position.x) / (v.thicknessX * v.scale)⌋).toNat 0).val : ℚ) /
          255) ∧
    0 ≤ v.getDensity p ∧ v.getDensity p ≤ 1 := by
  have hval : ∀ b : Fin 256, ((b.val : ℚ) ≤ 255) := by
    intro b
    exact_mod_cast Nat.le_of_lt_succ b.isLt
  refine ⟨?_, ?_, ?_⟩
  · unfold Volumetric.getDensity Volumetric.GetIndexes Volumetric.Value
    dsimp only
    split_ifs with h
    · simp
    · rfl
  · unfold Volumetric.getDensity
    positivity
  · unfold Volumetric.getDensity
    dsimp only
    rw [div_le_one (by norm_num)]
    exact hval _

/- ### Volumetric entry intersection and exit point (claims C5, C6) -/

/-- One axis block of `hit` either rejects (parallel axis, origin outside
the slab) or narrows the running interval with that axis's `axisLo`/`axisHi`
updates. -/
theorem slabAxis_eq (d o lo hi : ℚ) (t : ℚ × ℚ) :
    slabAxis d o lo hi t = none ∨
    slabAxis d o lo hi t = some (axisLo d o lo hi t.1, axisHi d o lo hi t.2) := by
  unfold slabAxis axisLo axisHi
  split_ifs with h1 h2
  · right; rfl
  · left; rfl
  · right; rfl

/-- A ray parallel to the x-axis slab (direction component within `1e-6` of
zero) whose origin lies outside that slab beyond `EPSILON` is rejected by
`Volumetric::hit`. -/
theorem hit_none_of_parallel_x (v : Volumetric) (ray : Ray) (tMin tMax : ℚ)
    (hd : ¬ volEps < |ray.direction.x|)
    (ho : ray.origin.x < v.v0.x - volEps ∨ v.v1.x + volEps < ray.origin.x) :
    v.hit ray tMin tMax = none := by
  have hx : slabAxis ray.direction.x ray.origin.x v.v0.x v.v1.x (tMin, tMax) = none := by
    unfold slabAxis
    rw [if_neg hd, if_pos ho]
  simp [Volumetric.hit, hx]

/-- As `hit_none_of_parallel_x`, for the y axis. -/
theorem hit_none_of_parallel_y (v : Volumetric) (ray : Ray) (tMin tMax : ℚ)
    (hd : ¬ volEps < |ray.direction.y|)
    (ho : ray.origin.y < v.v0.y - volEps ∨ v.v1.y + volEps < ray.origin.y) :
    v.hit ray tMin tMax = none := by
  unfold Volumetric.hit
  cases hx : (slabAxis ray.direction.x ray.origin.x v.v0.x v.v1.x (tMin, tMax)).bind
      intervalCheck with
  | none => rfl
  | some tx =>
    have hy : slabAxis ray.direction.y ray.origin.y v.v0.y v.v1.y tx = none := by
      unfold slabAxis
      rw [if_neg hd, if_pos ho]
    simp [hy]

/-- As `hit_none_of_parallel_x`, for the z axis. -/
theorem hit_none_of_parallel_z (v : Volumetric) (ray : Ray) (tMin tMax : ℚ)
    (hd : ¬ volEps < |ray.direction.z|)
    (ho : ray.origin.z < v.v0.z - volEps ∨ v.v1.z + volEps < ray.origin.z) :
    v.hit ray tMin tMax = none := by
  unfold Volumetric.hit
  cases hx : (slabAxis ray.direction.x ray.origin.x v.v0.x v.v1.x (tMin, tMax)).bind
      intervalCheck with
  | none => rfl
  | some tx =>
    cases hy : (slabAxis ray.direction.y ray.origin.y v.v0.y v.v1.y tx).bind
        intervalCheck with
    | none => simp [hy]
    | some ty =>
      have hz : slabAxis ray.direction.z ray.origin.z v.v0.z v.v1.z ty = none := by
        unfold slabAxis
        rw [if_neg hd, if_pos ho]
      simp [hy, hz]

/-- When the combined slab interval (`tMin` raised and `tMax` lowered by
every non-parallel axis) is empty, `Volumetric::hit` rejects the ray. -/
theorem hit_none_of_empty (v : Volumetric) (ray : Ray) (tMin tMax : ℚ)
    (h : v.combinedT1 ray tMax ≤ v.combinedT0 ray tMin) :
    v.hit ray tMin tMax = none := by
  have heps : (0 : ℚ) ≤ volEps := by norm_num [volEps]
  unfold Volumetric.combinedT0 Volumetric.combinedT1 at h
  unfold Volumetric.hit intervalCheck
  rcases slabAxis_eq ray.direction.x ray.origin.x v.v0.x v.v1.x (tMin, tMax)
    with hx | hx <;> rw [hx]
  · rfl
  simp only [Option.some_bind]
  dsimp only
  split_ifs with hc1
  · rfl
  simp only [Option.some_bind]
  rcases slabAxis_eq ray.direction.y ray.origin.y v.v0.y v.v1.y
      (axisLo ray.direction.x ray.origin.x v.v0.x v.v1.x tMin,
       axisHi ray.direction.x ray.origin.x v.v0.x v.v1.x tMax)
    with hy | hy <;> rw [hy]
  · rfl
  simp only [Option.some_bind]
  dsimp only
  split_ifs with hc2
  · rfl
  simp only [Option.some_bind]
  rcases slabAxis_eq ray.direction.z ray.origin.z v.v0.z v.v1.z
      (axisLo ray.direction.y ray.origin.y v.v0.y v.v1.y
        (axisLo ray.direction.x ray.origin.x v.v0.x v.v1.x tMin),
       axisHi ray.direction.y ray.origin.y v.v0.y v.v1.y
        (axisHi ray.direction.x ray.origin.x v.v0.x v.v1.x tMax))
    with hz | hz <;> rw [hz]
  · rfl
  simp only [Option.some_bind]
  dsimp only
  split_ifs with hc3
  · rfl
  · exact absurd (by linarith : axisHi ray.direction.z ray.origin.z v.v0.z v.v1.z
      (axisHi ray.direction.y ray.origin.y v.v0.y v.v1.y
        (axisHi ray.direction.x ray.origin.x v.v0.x v.v1.x tMax)) ≤
      axisLo ray.direction.z ray.origin.z v.v0.z v.v1.z
      (axisLo ray.direction.y ray.origin.y v.v0.y v.v1.y
        (axisLo ray.direction.x ray.origin.x v.v0.x v.v1.x tMin)) + volEps) hc3

/-- C5.  A ray whose direction is (near-)zero on some axis and whose origin
lies outside that axis's slab beyond `EPSILON` gets no hit from
`Volumetric::hit` — even when the other two axes alone would admit one —
and a ray whose combined `[tNear, tFar]` interval is empty gets no hit. -/
theorem volumetric_hit_reject_spec (v : Volumetric) (ray : Ray) (tMin tMax : ℚ) :
    ((¬ volEps < |ray.direction.x|) ∧
        (ray.origin.x < v.v0.x - volEps ∨ v.v1.x + volEps < ray.origin.x) →
      v.hit ray tMin tMax = none) ∧
    ((¬ volEps < |ray.direction.y|) ∧
        (ray.origin.y < v.v0.y - volEps ∨ v.v1.y + volEps < ray.origin.y) →
      v.hit ray tMin tMax = none) ∧
    ((¬ volEps < |ray.direction.z|) ∧
        (ray.origin.z < v.v0.z - volEps ∨ v.v1.z + volEps < ray.origin.z) →
      v.hit ray tMin tMax = none) ∧
    (v.combinedT1 ray tMax ≤ v.combinedT0 ray tMin →
      v.hit ray tMin tMax = none) :=
  ⟨fun h => hit_none_of_parallel_x v ray tMin tMax h.1 h.2,
   fun h => hit_none_of_parallel_y v ray tMin tMax h.1 h.2,
   fun h => hit_none_of_parallel_z v ray tMin tMax h.1 h.2,
   fun h => hit_none_of_empty v ray tMin tMax h⟩

/-- C6.  `Volumetric::getExitPoint` recomputes the exit parameter by the
slab method from the entry point and returns `entry + direction * t1`
unconditionally (a total function — no rejection path); an axis on which
the direction is (near-)zero is non-constraining, in that the exit
parameter does not depend on that axis's slab planes at all; by contrast
the entry intersection `hit` rejects a ray that is parallel to an axis and
outside its slab. -/
theorem volumetric_exit_parallel_spec (v : Volumetric) (ray : Ray)
    (entry : Vec3) (tMin tMax a b : ℚ) :
    (v.getExitPoint ray entry =
      entry.add (ray.direction.smul (v.exitT ray entry))) ∧
    (¬ volEps < |ray.direction.x| →
      Volumetric.exitT
          { v with v0 := { v.v0 with x := a }, v1 := { v.v1 with x := b } }
          ray entry = v.exitT ray entry) ∧
    (¬ volEps < |ray.direction.y| →
      Volumetric.exitT
          { v with v0 := { v.v0 with y := a }, v1 := { v.v1 with y := b } }
          ray entry = v.exitT ray entry) ∧
    (¬ volEps < |ray.direction.z| →
      Volumetric.exitT
          { v with v0 := { v.v0 with z := a }, v1 := { v.v1 with z := b } }
          ray entry = v.exitT ray entry) ∧
    ((¬ volEps < |ray.direction.x|) ∧
        (ray.origin.x < v.v0.x - volEps ∨ v.v1.x + volEps < ray.origin.x) →
      v.hit ray tMin tMax = none) := by
  refine ⟨rfl, ?_, ?_, ?_, fun h => hit_none_of_parallel_x v ray tMin tMax h.1 h.2⟩
  · intro h
    unfold Volumetric.exitT
    simp [axisHi, h]
  · intro h
    unfold Volumetric.exitT
    simp [axisHi, h]
  · intro h
    unfold Volumetric.exitT
    simp [axisHi, h]

/- ### Material interning (claims C1, C8, C10) -/

/-- An entity with a null material pointer is skipped entirely: the state
and the entity itself are unchanged. -/
theorem processEntity_none {α : Type} (s : InternState α) (e : Entity α)
    (h : e.mat = none) : processEntity s e = (s, e) := by
  unfold processEntity
  rw [h]

/-- Keys already in the index map keep their index across one entity. -/
theorem lookup_processEntity {α : Type} (s : InternState α) (e : Entity α)
    (k : Nat) (i : Int) (h : s.indexMap.lookup k = some i) :
    (processEntity s e).1.indexMap.lookup k = some i := by
  cases hm : e.mat with
  | none => simp only [processEntity, hm]; exact h
  | some m =>
    simp only [processEntity, hm]
    cases hl : s.indexMap.lookup m.id with
    | some j => simp only [hl]; exact h
    | none =>
      simp only [hl]
      have hk : (k == m.id) = false := by
        apply beq_eq_false_iff_ne.mpr
        intro he
        rw [he] at h
        rw [h] at hl
        exact Option.noConfusion hl
      simp [List.lookup, hk, h]

/-- Keys already in the index map keep their index across one container. -/
theorem lookup_processContainer {α : Type} (es : List (Entity α)) :
    ∀ (s : InternState α) (k : Nat) (i : Int), s.indexMap.lookup k = some i →
      (processContainer s es).1.indexMap.lookup k = some i := by
  induction es with
  | nil => intro s k i h; exact h
  | cons e es ih =>
    intro s k i h
    exact ih _ _ _ (lookup_processEntity s e k i h)

/-- Keys already in the index map keep their index across all containers. -/
theorem lookup_processAll {α : Type} (cs : List (List (Entity α))) :
    ∀ (s : InternState α) (k : Nat) (i : Int), s.indexMap.lookup k = some i →
      (processAll s cs).1.indexMap.lookup k = some i := by
  induction cs with
  | nil => intro s k i h; exact h
  | cons c cs ih =>
    intro s k i h
    exact ih _ _ _ (lookup_processContainer c s k i h)

/-- After one entity is processed, the map sends its material's pointer to
the index that was written into the entity. -/
theorem processEntity_out_lookup {α : Type} (s : InternState α) (e : Entity α)
    (m : MatPtr α) (h : e.mat = some m) :
    (processEntity s e).1.indexMap.lookup m.id =
      some (processEntity s e).2.materialIndex := by
  simp only [processEntity, h]
  cases hl : s.indexMap.lookup m.id with
  | some j => simp [hl]
  | none => simp [hl, List.lookup]

/-- Processing never changes an entity's material pointer. -/
theorem processEntity_mat {α : Type} (s : InternState α) (e : Entity α) :
    (processEntity s e).2.mat = e.mat := by
  cases hm : e.mat with
  | none => simp [processEntity, hm]
  | some m =>
    simp only [processEntity, hm]
    cases hl : s.indexMap.lookup m.id <;> simp [hl, hm]

/-- Every entity emitted by one container's pass carries the index its
material's pointer has in the container's final map. -/
theorem processContainer_out_lookup {α : Type} (es : List (Entity α)) :
    ∀ (s : InternState α) (e' : Entity α) (m : MatPtr α),
      e' ∈ (processContainer s es).2 → e'.mat = some m →
      (processContainer s es).1.indexMap.lookup m.id = some e'.materialIndex := by
  induction es with
  | nil => intro s e' m hmem _; simp [processContainer] at hmem
  | cons e es ih =>
    intro s e' m hmem hmat
    simp only [processContainer, List.mem_cons] at hmem
    rcases hmem with h1 | h1
    · subst h1
      have hmat' : e.mat = some m := by
        rw [← processEntity_mat s e]
        exact hmat
      exact lookup_processContainer es _ _ _ (processEntity_out_lookup s e m hmat')
    · exact ih _ _ _ h1 hmat

/-- Every entity emitted by the whole pass carries the index its material's
pointer has in the final map. -/
theorem processAll_out_lookup {α : Type} (cs : List (List (Entity α))) :
    ∀ (s : InternState α) (c : List (Entity α)) (e' : Entity α) (m : MatPtr α),
      c ∈ (processAll s cs).2 → e' ∈ c → e'.mat = some m →
      (processAll s cs).1.indexMap.lookup m.id = some e'.materialIndex := by
  induction cs with
  | nil => intro s c e' m hc _ _; simp [processAll] at hc
  | cons c0 cs ih =>
    intro s c e' m hc he hmat
    simp only [processAll, List.mem_cons] at hc
    rcases hc with h1 | h1
    · subst h1
      exact lookup_processAll cs _ _ _
        (processContainer_out_lookup c0 s e' m he hmat)
    · exact ih _ _ _ _ h1 he hmat

/-- C1.  Interning a container whose entities reference the material
instance sequence `A, B, A, C` yields the deduplicated list `[A, B, C]`
and the index sequence `0, 1, 0, 2`; and in any run over any containers,
two entities referencing the same material instance are assigned the same
index. -/
theorem material_interning_spec (α : Type) (A B C : α)
    (cs : List (List (Entity α))) (c1 c2 : List (Entity α))
    (e1 e2 : Entity α) (m1 m2 : MatPtr α) :
    ((SceneManager.prepareForRender
        [[Entity.ofMaterial (some ⟨0, A⟩), Entity.ofMaterial (some ⟨1, B⟩),
          Entity.ofMaterial (some ⟨0, A⟩), Entity.ofMaterial (some ⟨2, C⟩)]]).1.outMaterials
        = [A, B, C] ∧
      (SceneManager.prepareForRender
        [[Entity.ofMaterial (some ⟨0, A⟩), Entity.ofMaterial (some ⟨1, B⟩),
          Entity.ofMaterial (some ⟨0, A⟩), Entity.ofMaterial (some ⟨2, C⟩)]]).2
        = [[⟨some ⟨0, A⟩, 0⟩, ⟨some ⟨1, B⟩, 1⟩,
            ⟨some ⟨0, A⟩, 0⟩, ⟨some ⟨2, C⟩, 2⟩]]) ∧
    (c1 ∈ (SceneManager.prepareForRender cs).2 →
      c2 ∈ (SceneManager.prepareForRender cs).2 →
      e1 ∈ c1 → e2 ∈ c2 → e1.mat = some m1 → e2.mat = some m2 →
      m1.id = m2.id → e1.materialIndex = e2.materialIndex) := by
  constructor
  · constructor <;> rfl
  · intro hc1 hc2 he1 he2 hm1 hm2 hid
    have h1 := processAll_out_lookup cs _ c1 e1 m1 hc1 he1 hm1
    have h2 := processAll_out_lookup cs _ c2 e2 m2 hc2 he2 hm2
    rw [hid] at h1
    rw [h1] at h2
    exact Option.some_inj.mp h2

/-- Invariant of the interning state: every assigned index is a valid
offset into `outMaterials`, and no two map entries share an index. -/
def mapRangeInv {α : Type} (s : InternState α) : Prop :=
  (∀ q ∈ s.indexMap, 0 ≤ q.2 ∧ q.2 < (s.outMaterials.length : Int)) ∧
  (s.indexMap.map Prod.snd).Nodup

/-- One entity preserves the interning-state invariant: a fresh index is
`outMaterials.size()`, strictly larger than every index already assigned. -/
theorem processEntity_inv {α : Type} (s : InternState α) (e : Entity α)
    (hinv : mapRangeInv s) : mapRangeInv (processEntity s e).1 := by
  cases hm : e.mat with
  | none => simpa [processEntity, hm] using hinv
  | some m =>
    simp only [processEntity, hm]
    cases hl : s.indexMap.lookup m.id with
    | some j => simpa [hl] using hinv
    | none =>
      simp only [hl]
      constructor
      · intro q hq
        rcases List.mem_cons.mp hq with h | h
        · subst h
          refine ⟨Int.ofNat_nonneg _, ?_⟩
          simp only [List.length_append, List.length_cons, List.length_nil]
          push_cast
          omega
        · have hb := hinv.1 q h
          simp only [List.length_append, List.length_cons, List.length_nil]
          push_cast
          omega
      · simp only [List.map_cons]
        refine List.nodup_cons.mpr ⟨?_, hinv.2⟩
        intro hmem
        rcases List.mem_map.mp hmem with ⟨q, hq, hsnd⟩
        have hb := hinv.1 q hq
        omega

/-- One container preserves the interning-state invariant. -/
theorem processContainer_inv {α : Type} (es : List (Entity α)) :
    ∀ s : InternState α, mapRangeInv s → mapRangeInv (processContainer s es).1 := by
  induction es with
  | nil => intro s h; exact h
  | cons e es ih => intro s h; exact ih _ (processEntity_inv s e h)

/-- The whole pass preserves the interning-state invariant. -/
theorem processAll_inv {α : Type} (cs : List (List (Entity α))) :
    ∀ s : InternState α, mapRangeInv s → mapRangeInv (processAll s cs).1 := by
  induction cs with
  | nil => intro s h; exact h
  | cons c cs ih => intro s h; exact ih _ (processContainer_inv c s h)

/-- A successful association-list lookup exhibits its entry. -/
theorem lookup_mem (l : List (Nat × Int)) (k : Nat) (i : Int)
    (h : l.lookup k = some i) : (k, i) ∈ l := by
  induction l with
  | nil => simp [List.lookup] at h
  | cons q l ih =>
    obtain ⟨a, b⟩ := q
    simp only [List.lookup] at h
    cases hk : (k == a) with
    | true =>
      simp only [hk] at h
      have hka : k = a := eq_of_beq hk
      have hbi : b = i := Option.some_inj.mp h
      exact List.mem_cons.mpr (Or.inl (by rw [hka, hbi]))
    | false =>
      simp only [hk] at h
      exact List.mem_cons.mpr (Or.inr (ih h))

/-- Under the invariant, distinct pointers in the map carry distinct
indices. -/
theorem lookup_inj_of_inv {α : Type} (s : InternState α) (hinv : mapRangeInv s)
    (k1 k2 : Nat) (i1 i2 : Int) (h1 : s.indexMap.lookup k1 = some i1)
    (h2 : s.indexMap.lookup k2 = some i2) (hne : k1 ≠ k2) : i1 ≠ i2 := by
  intro he
  have hm1 := lookup_mem _ _ _ h1
  have hm2 := lookup_mem _ _ _ h2
  have heq : ((k1, i1) : Nat × Int) = (k2, i2) :=
    List.inj_on_of_nodup_map hinv.2 hm1 hm2 he
  exact hne (congrArg Prod.fst heq)

/-- C8.  Deduplication is by instance identity, not value equality: two
entities whose materials are distinct instances with identical field
values receive the two indices 0 and 1 and the output list holds the value
twice; in general, any two entities whose materials are distinct instances
— whatever their values — are assigned distinct indices. -/
theorem material_identity_dedup_spec (α : Type) (v : α) (id1 id2 : Nat)
    (cs : List (List (Entity α))) (c1 c2 : List (Entity α))
    (e1 e2 : Entity α) (m1 m2 : MatPtr α) :
    (id1 ≠ id2 →
      (SceneManager.prepareForRender
          [[Entity.ofMaterial (some ⟨id1, v⟩),
            Entity.ofMaterial (some ⟨id2, v⟩)]]).1.outMaterials = [v, v] ∧
      (SceneManager.prepareForRender
          [[Entity.ofMaterial (some ⟨id1, v⟩),
            Entity.ofMaterial (some ⟨id2, v⟩)]]).2 =
        [[⟨some ⟨id1, v⟩, 0⟩, ⟨some ⟨id2, v⟩, 1⟩]]) ∧
    (c1 ∈ (SceneManager.prepareForRender cs).2 →
      c2 ∈ (SceneManager.prepareForRender cs).2 →
      e1 ∈ c1 → e2 ∈ c2 → e1.mat = some m1 → e2.mat = some m2 →
      m1.id ≠ m2.id → e1.materialIndex ≠ e2.materialIndex) := by
  constructor
  · intro h
    have hb : (id2 == id1) = false := beq_eq_false_iff_ne.mpr (Ne.symm h)
    constructor <;>
      simp [SceneManager.prepareForRender, processAll, processContainer,
        processEntity, Entity.ofMaterial, List.lookup, hb]
  · intro hc1 hc2 he1 he2 hm1 hm2 hne
    have h1 := processAll_out_lookup cs _ c1 e1 m1 hc1 he1 hm1
    have h2 := processAll_out_lookup cs _ c2 e2 m2 hc2 he2 hm2
    have hinv : mapRangeInv
        (processAll ({ outMaterials := [], indexMap := [] } : InternState α) cs).1 :=
      processAll_inv cs _ ⟨by simp, by simp⟩
    exact lookup_inj_of_inv _ hinv m1.id m2.id _ _ h1 h2 hne

/-- Splitting one container's pass around a prefix. -/
theorem processContainer_append {α : Type} (xs ys : List (Entity α)) :
    ∀ s : InternState α, processContainer s (xs ++ ys) =
      ((processContainer (processContainer s xs).1 ys).1,
       (processContainer s xs).2 ++
         (processContainer (processContainer s xs).1 ys).2) := by
  induction xs with
  | nil => intro s; simp [processContainer]
  | cons e xs ih => intro s; simp [processContainer, ih]

/-- Splitting the whole pass around a prefix of containers. -/
theorem processAll_append {α : Type} (xs ys : List (List (Entity α))) :
    ∀ s : InternState α, processAll s (xs ++ ys) =
      ((processAll (processAll s xs).1 ys).1,
       (processAll s xs).2 ++ (processAll (processAll s xs).1 ys).2) := by
  induction xs with
  | nil => intro s; simp [processAll]
  | cons c xs ih => intro s; simp [processAll, ih]

/-- C10.  An entity with a null material pointer is skipped entirely by
`prepareForRender`: it is emitted unchanged (its `materialIndex_`, `-1`
from construction, is not touched), nothing is appended to the material
list for it, and the state threaded on — hence every other entity's index
and the output material list — is exactly that of the run in which the
entity is absent. -/
theorem null_material_skip_spec (α : Type) (cs1 cs2 : List (List (Entity α)))
    (pre suf : List (Entity α)) (e : Entity α) :
    (e.mat = none →
      SceneManager.prepareForRender (cs1 ++ (pre ++ e :: suf) :: cs2) =
        ((processAll (processContainer (processContainer
            (processAll { outMaterials := [], indexMap := [] } cs1).1 pre).1 suf).1 cs2).1,
         (processAll { outMaterials := [], indexMap := [] } cs1).2 ++
           ((processContainer
              (processAll { outMaterials := [], indexMap := [] } cs1).1 pre).2 ++
             e :: (processContainer (processContainer
              (processAll { outMaterials := [], indexMap := [] } cs1).1 pre).1 suf).2) ::
           (processAll (processContainer (processContainer
            (processAll { outMaterials := [], indexMap := [] } cs1).1 pre).1 suf).1 cs2).2) ∧
      SceneManager.prepareForRender (cs1 ++ (pre ++ suf) :: cs2) =
        ((processAll (processContainer (processContainer
            (processAll { outMaterials := [], indexMap := [] } cs1).1 pre).1 suf).1 cs2).1,
         (processAll { outMaterials := [], indexMap := [] } cs1).2 ++
           ((processContainer
              (processAll { outMaterials := [], indexMap := [] } cs1).1 pre).2 ++
             (processContainer (processContainer
              (processAll { outMaterials := [], indexMap := [] } cs1).1 pre).1 suf).2) ::
           (processAll (processContainer (processContainer
            (processAll { outMaterials := [], indexMap := [] } cs1).1 pre).1 suf).1 cs2).2)) ∧
    (Entity.ofMaterial (none : Option (MatPtr α))).materialIndex = -1 := by
  refine ⟨fun h => ⟨?_, ?_⟩, rfl⟩
  · have hmid : ∀ s : InternState α, processContainer s (pre ++ e :: suf) =
        ((processContainer (processContainer s pre).1 suf).1,
         (processContainer s pre).2 ++
           e :: (processContainer (processContainer s pre).1 suf).2) := by
      intro s
      rw [processContainer_append pre (e :: suf) s]
      simp [processContainer, processEntity_none _ _ h]
    unfold SceneManager.prepareForRender
    rw [processAll_append cs1 ((pre ++ e :: suf) :: cs2) _]
    simp [processAll, hmid]
  · unfold SceneManager.prepareForRender
    rw [processAll_append cs1 ((pre ++ suf) :: cs2) _]
    simp [processAll, processContainer_append]

/- ### Concrete witnesses -/

/-- Witness for C1: in a concrete run, two entities referencing the same
material instance receive the same index. -/
theorem material_interning_spec_witness :
    (⟨some ⟨3, 9⟩, 0⟩ : Entity Nat).materialIndex =
      (⟨some ⟨3, 9⟩, 0⟩ : Entity Nat).materialIndex :=
  (material_interning_spec Nat 0 0 0
      [[Entity.ofMaterial (some ⟨3, 9⟩), Entity.ofMaterial (some ⟨3, 9⟩)]]
      [⟨some ⟨3, 9⟩, 0⟩, ⟨some ⟨3, 9⟩, 0⟩] [⟨some ⟨3, 9⟩, 0⟩, ⟨some ⟨3, 9⟩, 0⟩]
      ⟨some ⟨3, 9⟩, 0⟩ ⟨some ⟨3, 9⟩, 0⟩ ⟨3, 9⟩ ⟨3, 9⟩).2
    (by decide) (by decide) (by decide) (by decide) rfl rfl rfl

/-- Witness for C2: a concrete marker-less module text yields the empty
extracted function name. -/
theorem shader_missing_marker_spec_witness :
    extractFunctionName "int x;".toList = [] :=
  (shader_missing_marker_spec [] 0 "int x;".toList).2.2 (by decide)

/-- Witness for C5: a concrete ray parallel to the x axis, outside the x
slab of a concrete unit volume, is rejected by `hit` although it crosses
the y and z slabs. -/
theorem volumetric_hit_reject_spec_witness :
    Volumetric.hit ⟨⟨0, 0, 0⟩, 1, 1, 1, 1, 1, 1, 1, ⟨0, 0, 0⟩, ⟨1, 1, 1⟩, []⟩
      ⟨⟨5, 0, 0⟩, ⟨0, 1, 0⟩⟩ 0 100 = none :=
  (volumetric_hit_reject_spec
      ⟨⟨0, 0, 0⟩, 1, 1, 1, 1, 1, 1, 1, ⟨0, 0, 0⟩, ⟨1, 1, 1⟩, []⟩
      ⟨⟨5, 0, 0⟩, ⟨0, 1, 0⟩⟩ 0 100).1
    ⟨by norm_num [volEps], Or.inr (by norm_num [volEps])⟩

/-- Witness for C6: for a concrete ray parallel to the x axis the exit
parameter is unchanged when the volume's x slab planes are moved. -/
theorem volumetric_exit_parallel_spec_witness :
    Volumetric.exitT ⟨⟨0, 0, 0⟩, 1, 1, 1, 1, 1, 1, 1, ⟨50, 0, 0⟩, ⟨60, 1, 1⟩, []⟩
        ⟨⟨5, 0, 0⟩, ⟨0, 1, 0⟩⟩ ⟨0, 0, 0⟩ =
      Volumetric.exitT ⟨⟨0, 0, 0⟩, 1, 1, 1, 1, 1, 1, 1, ⟨0, 0, 0⟩, ⟨1, 1, 1⟩, []⟩
        ⟨⟨5, 0, 0⟩, ⟨0, 1, 0⟩⟩ ⟨0, 0, 0⟩ :=
  (volumetric_exit_parallel_spec
      ⟨⟨0, 0, 0⟩, 1, 1, 1, 1, 1, 1, 1, ⟨0, 0, 0⟩, ⟨1, 1, 1⟩, []⟩
      ⟨⟨5, 0, 0⟩, ⟨0, 1, 0⟩⟩ ⟨0, 0, 0⟩ 0 100 50 60).2.1
    (by norm_num [volEps])

/-- Witness for C7: in a concrete one-module discovery the assigned index
is at least 1. -/
theorem shader_index_map_spec_witness :
    1 ≤ (("a".toList, 1) : List Char × Nat).2 :=
  (shader_index_map_spec [("a".toList, "b".toList)]).2.2 ("a".toList, 1) (by decide)

/-- Witness for C8: two concrete entities whose materials are distinct
instances with the same value receive distinct indices. -/
theorem material_identity_dedup_spec_witness :
    (⟨some ⟨0, 1⟩, 0⟩ : Entity Nat).materialIndex ≠
      (⟨some ⟨1, 1⟩, 1⟩ : Entity Nat).materialIndex :=
  (material_identity_dedup_spec Nat 1 0 1
      [[Entity.ofMaterial (some ⟨0, 1⟩), Entity.ofMaterial (some ⟨1, 1⟩)]]
      [⟨some ⟨0, 1⟩, 0⟩, ⟨some ⟨1, 1⟩, 1⟩] [⟨some ⟨0, 1⟩, 0⟩, ⟨some ⟨1, 1⟩, 1⟩]
      ⟨some ⟨0, 1⟩, 0⟩ ⟨some ⟨1, 1⟩, 1⟩ ⟨0, 1⟩ ⟨1, 1⟩).2
    (by decide) (by decide) (by decide) (by decide) rfl rfl (by decide)

/-- Witness for C9: the fence waited on at frame 5 is not frame 4's. -/
theorem render_frame_fence_spec_witness : waitTarget 5 ≠ some 4 :=
  (render_frame_fence_spec 4).2.2.1

/-- Witness for C10: a concrete one-entity scene whose entity has a null
material yields an empty material list and the entity unchanged. -/
theorem null_material_skip_spec_witness :
    SceneManager.prepareForRender
        [[Entity.ofMaterial (none : Option (MatPtr Nat))]] =
      ({ outMaterials := [], indexMap := [] }, [[Entity.ofMaterial none]]) :=
  ((null_material_skip_spec Nat [] [] [] [] (Entity.ofMaterial none)).1 rfl).1
